import Mathlib

/-!
Verification development for `app.py` of the cdfetch repository: an
interactive client that queries a grants-search API, paginates through
results, and persists them as JSON files.

The shallow embedding below translates the core components:
  * `buildQueryParams` — `GrantFetcher._build_query_params` (app.py lines 66-105),
  * `fetchLoop` / `fetchGrants` — `GrantFetcher.fetch_grants` (lines 107-129),
  * `save_grants_to_file` — `GrantFetcher.save_grants_to_file` (lines 131-136),
  * `toJson` / `fromJson` — the `json.dump` / `json.load` round trip used by
    `save_search_config` (lines 172-177) and `load_search_config` (lines 180-185).

Python machine-level details that matter are kept explicit: parameter values
are ints or strings (`PVal`), the year-expansion branch can raise a
`TypeError` (modelled with `Except`), Python tuples and lists are distinct
values that serialize to the same JSON array (`PyVal`), and the fetch loop
always iterates `range(1, num_pages + 1)`.
-/

/-- A query-parameter value as stored in the Python dict built by
`_build_query_params`: the code stores the page number and the dollar bounds
as Python ints and everything else as strings. -/
inductive PVal where
  | str : String → PVal
  | int : Int → PVal
deriving DecidableEq, Repr

/-- The one exception `_build_query_params` itself can raise: the `TypeError`
from `range(start_year, end_year + 1)` when a bound of a non-`(None, None)`
year range is `None`. -/
inductive PyErr where
  | typeError
deriving DecidableEq, Repr

/-- Embedding of Python `range(s, e + 1)` over ints: the list
`[s, s + 1, ..., e]`, empty when `s > e`. -/
def intRange (s e : Int) : List Int :=
  (List.range (e + 1 - s).toNat).map (fun i : Nat => s + (i : Int))

/-- The suffix of `_build_query_params` after the year branch (app.py lines
90-103): the four independent conditional inserts for `subject`,
`population`, `support`, `min_amt` and `max_amt`, appended in source order
to the params built so far. -/
def addOptionalParams (subjects populations support_strategies : List String)
    (min_amt max_amt : Option Int) (params : List (String × PVal)) :
    List (String × PVal) :=
  let params := if subjects = [] then params else
    params ++ [("subject", PVal.str (String.intercalate "," subjects))]
  let params := if populations = [] then params else
    params ++ [("population", PVal.str (String.intercalate "," populations))]
  let params := if support_strategies = [] then params else
    params ++ [("support", PVal.str (String.intercalate "," support_strategies))]
  let params := match min_amt with
    | some m => params ++ [("min_amt", PVal.int m)]
    | none => params
  match max_amt with
  | some m => params ++ [("max_amt", PVal.int m)]
  | none => params

/-- Embedding of `GrantFetcher._build_query_params` (app.py lines 66-105).
The Python dict is modelled as an association list in insertion order.
Fixed entries first; then the `locations` block; then the year branch, which
raises `TypeError` when the year range is neither `(None, None)` nor fully
set (Python `end_year + 1` / `range(None, _)` on a `None` bound); then the
remaining conditional entries via `addOptionalParams`. -/
def buildQueryParams (page_number : Int) (year_range : Option Int × Option Int)
    (dollar_range : Option Int × Option Int)
    (subjects populations locations support_strategies : List String) :
    Except PyErr (List (String × PVal)) :=
  let params : List (String × PVal) :=
    [("page", PVal.int page_number),
     ("include_gov", PVal.str "yes"),
     ("sort_by", PVal.str "year_issued"),
     ("sort_order", PVal.str "desc"),
     ("format", PVal.str "json")]
  let params := if locations = [] then params else
    params ++ [("location", PVal.str (String.intercalate "," locations)),
               ("geo_id_type", PVal.str "geonameid"),
               ("location_type", PVal.str "area_served")]
  let yeared : Except PyErr (List (String × PVal)) :=
    if year_range = (none, none) then Except.ok params
    else match year_range with
      | (some s, some e) =>
          Except.ok (params ++
            [("year", PVal.str (String.intercalate "," ((intRange s e).map toString)))])
      | _ => Except.error PyErr.typeError
  match yeared with
  | Except.error err => Except.error err
  | Except.ok params =>
      Except.ok (addOptionalParams subjects populations support_strategies
        dollar_range.1 dollar_range.2 params)




/-- The spec's description of the year expansion, written from its words:
"comma-joined list of every integer from `start` to `end` inclusive", built
by counting up from `start`. Used to compare against the code's
`range(start_year, end_year + 1)` expression. -/
def specYearCodes (s e : Int) : List Int :=
  if s ≤ e then s :: specYearCodes (s + 1) e else []
termination_by (e + 1 - s).toNat
decreasing_by omega

/-- The `data` field of a successfully parsed response envelope, as the fetch
loop consumes it (app.py lines 118-122): a `rows` entry that may be absent.
(`total_hits` and `num_pages` are read only by `main`, not by the loop.) -/
structure PageData (α : Type) where
  rows : Option (List α)
deriving Repr

/-- Everything observable about one run of the `fetch_grants` loop:
the accumulated rows, the pages noted as having no grants data (the
`logging.info` at line 121), the logged page errors (line 126; at most one,
since the loop breaks), and the pages on which the fetcher was invoked, in
order. -/
structure FetchResult (α ε : Type) where
  grants : List α
  infoNotes : List Nat
  errors : List (Nat × ε)
  pagesFetched : List Nat
deriving Repr

/-- The loop body of `GrantFetcher.fetch_grants` (app.py lines 113-127),
run over an explicit list of page numbers. `fetcher p` models
`get_grants_transactions(p, ...)` followed by the `["data"]` access: `ok`
carries the parsed `data` dict, `error` any exception (network failure,
non-2xx status, missing key). On `ok` the rows (if present) are appended and
the loop continues; on `error` the loop logs and breaks immediately. -/
def fetchLoop {α ε : Type} (fetcher : Nat → Except ε (PageData α)) :
    List Nat → FetchResult α ε
  | [] => ⟨[], [], [], []⟩
  | p :: ps =>
    match fetcher p with
    | Except.ok data =>
        let rest := fetchLoop fetcher ps
        match data.rows with
        | some rs => ⟨rs ++ rest.grants, rest.infoNotes, rest.errors, p :: rest.pagesFetched⟩
        | none => ⟨rest.grants, p :: rest.infoNotes, rest.errors, p :: rest.pagesFetched⟩
    | Except.error e => ⟨[], [], [(p, e)], [p]⟩

/-- Embedding of `GrantFetcher.fetch_grants` (app.py lines 107-129): the
loop header is `for page_number in range(1, num_pages + 1)`, so the pages
iterated are always `1, 2, ..., num_pages` — there is no start-page
parameter. -/
def fetchGrants {α ε : Type} (fetcher : Nat → Except ε (PageData α))
    (num_pages : Nat) : FetchResult α ε :=
  fetchLoop fetcher (List.range' 1 num_pages)

/-- The rows a list of pages contributes: for each page, the `rows` of a
successful response (empty if the `rows` entry is absent), nothing for a
failed one. Used to state what "the rows accumulated from these pages"
means independently of the loop. -/
def pageRows {α ε : Type} (fetcher : Nat → Except ε (PageData α))
    (pages : List Nat) : List α :=
  pages.flatMap (fun p =>
    match fetcher p with
    | Except.ok data => data.rows.getD []
    | Except.error _ => [])

/-- `Except` success predicate used in loop hypotheses. -/
def isOkE {ε β : Type} : Except ε β → Bool
  | Except.ok _ => true
  | Except.error _ => false



/-- A Python value of the shapes that appear in a search configuration:
`None`, ints, strings, lists, tuples and string-keyed dicts. Tuples and
lists are distinct Python values (`(None, None) != [None, None]`), which is
what makes the JSON round trip below lossy. -/
inductive PyVal where
  | pnone : PyVal
  | pint : Int → PyVal
  | pstr : String → PyVal
  | plist : List PyVal → PyVal
  | ptuple : List PyVal → PyVal
  | pdict : List (String × PyVal) → PyVal

/-- A JSON document as `json.dump` writes it and `json.load` reads it back:
null, numbers, strings, arrays and objects. There is no tuple/list
distinction at this level. -/
inductive JVal where
  | null : JVal
  | num : Int → JVal
  | str : String → JVal
  | arr : List JVal → JVal
  | obj : List (String × JVal) → JVal

mutual
/-- `json.dump` on a Python value: both lists and tuples serialize to JSON
arrays (this is Python's standard `JSONEncoder` behaviour, used by
`save_search_config` at app.py line 176). -/
def toJson : PyVal → JVal
  | PyVal.pnone => JVal.null
  | PyVal.pint n => JVal.num n
  | PyVal.pstr s => JVal.str s
  | PyVal.plist xs => JVal.arr (toJsonList xs)
  | PyVal.ptuple xs => JVal.arr (toJsonList xs)
  | PyVal.pdict kvs => JVal.obj (toJsonKVs kvs)

def toJsonList : List PyVal → List JVal
  | [] => []
  | v :: vs => toJson v :: toJsonList vs

def toJsonKVs : List (String × PyVal) → List (String × JVal)
  | [] => []
  | (k, v) :: kvs => (k, toJson v) :: toJsonKVs kvs
end

mutual
/-- `json.load` on a document: JSON arrays always come back as Python
lists (used by `load_search_config` at app.py line 183). -/
def fromJson : JVal → PyVal
  | JVal.null => PyVal.pnone
  | JVal.num n => PyVal.pint n
  | JVal.str s => PyVal.pstr s
  | JVal.arr xs => PyVal.plist (fromJsonList xs)
  | JVal.obj kvs => PyVal.pdict (fromJsonKVs kvs)

def fromJsonList : List JVal → List PyVal
  | [] => []
  | v :: vs => fromJson v :: fromJsonList vs

def fromJsonKVs : List (String × JVal) → List (String × PyVal)
  | [] => []
  | (k, v) :: kvs => (k, fromJson v) :: fromJsonKVs kvs
end

/-- Embedding of `save_search_config` (app.py lines 172-177): the JSON
document written to `saved_searches/{search_name}.json` is the
serialization of the config dict. -/
def save_search_config (config : PyVal) : JVal := toJson config

/-- Embedding of `load_search_config` (app.py lines 180-185): parse the
stored document back into a Python value. Loading a name right after saving
it reads exactly the document `save_search_config` wrote. -/
def load_search_config (stored : JVal) : PyVal := fromJson stored

/-- An optional int as Python holds it: `None` or an int. -/
def optInt : Option Int → PyVal
  | none => PyVal.pnone
  | some n => PyVal.pint n

/-- The search-config dict exactly as `main` builds it before saving
(app.py lines 317-325): `year_range` and `dollar_range` are tuples of
optional ints, the four code lists are lists of strings, and
`output_prefix` is a string. -/
def mkSearchConfig (year_range dollar_range : Option Int × Option Int)
    (subjects populations locations support_strategies : List String)
    ( output_prefix : String) : PyVal :=
  PyVal.pdict
    [("year_range", PyVal.ptuple [optInt year_range.1, optInt year_range.2]),
     ("dollar_range", PyVal.ptuple [optInt dollar_range.1, optInt dollar_range.2]),
     ("subjects", PyVal.plist (subjects.map PyVal.pstr)),
     ("populations", PyVal.plist (populations.map PyVal.pstr)),
     ("locations", PyVal.plist (locations.map PyVal.pstr)),
     ("support_strategies", PyVal.plist (support_strategies.map PyVal.pstr)),
     ("output_prefix", PyVal.pstr output_prefix)]

/-- The same configuration as `load_search_config` hands it back: the two
range fields are now Python lists, everything else unchanged. -/
def mkLoadedSearchConfig (year_range dollar_range : Option Int × Option Int)
    (subjects populations locations support_strategies : List String)
    ( output_prefix : String) : PyVal :=
  PyVal.pdict
    [("year_range", PyVal.plist [optInt year_range.1, optInt year_range.2]),
     ("dollar_range", PyVal.plist [optInt dollar_range.1, optInt dollar_range.2]),
     ("subjects", PyVal.plist (subjects.map PyVal.pstr)),
     ("populations", PyVal.plist (populations.map PyVal.pstr)),
     ("locations", PyVal.plist (locations.map PyVal.pstr)),
     ("support_strategies", PyVal.plist (support_strategies.map PyVal.pstr)),
     ("output_prefix", PyVal.pstr output_prefix)]

/-- One file write, as `save_grants_to_file` performs it: the path, the
JSON value dumped, and the `indent` argument passed to `json.dump`. -/
structure FileWrite where
  path : String
  content : JVal
  indent : Nat

/-- Embedding of `GrantFetcher.save_grants_to_file` (app.py lines 131-136):
the file is named `f"{output_prefix}_pages_{page_start}-{page_end}.json"`
and receives `json.dump({"grants": grants}, f, indent=2)`. -/
def save_grants_to_file (grants : List JVal) ( output_prefix : String)
    (page_start page_end : Int) : FileWrite :=
  { path := output_prefix ++ "_pages_" ++ toString page_start ++ "-" ++
      toString page_end ++ ".json",
    content := JVal.obj [("grants", JVal.arr grants)],
    indent := 2 }


/-- The pages of a list that a run over them would note as "No grants data
found" (successful response whose `data` has no `rows` entry). -/
def pageNotes {α ε : Type} (fetcher : Nat → Except ε (PageData α))
    (pages : List Nat) : List Nat :=
  pages.filter (fun p =>
    match fetcher p with
    | Except.ok data => data.rows.isNone
    | Except.error _ => false)

/-! ### Shape of the built parameter list

The following definitions name the pieces `_build_query_params` appends, so
that each claim about a key can be settled by rewriting with one equation
and then computing lookups. -/

/-- The five fixed entries (app.py lines 74-80). -/
def baseList (page_number : Int) : List (String × PVal) :=
  [("page", PVal.int page_number),
   ("include_gov", PVal.str "yes"),
   ("sort_by", PVal.str "year_issued"),
   ("sort_order", PVal.str "desc"),
   ("format", PVal.str "json")]

/-- The `locations` block (app.py lines 82-85), empty when `locations` is. -/
def locList (locations : List String) : List (String × PVal) :=
  if locations = [] then [] else
    [("location", PVal.str (String.intercalate "," locations)),
     ("geo_id_type", PVal.str "geonameid"),
     ("location_type", PVal.str "area_served")]

/-- The entries contributed by the four trailing conditionals
(app.py lines 90-103). -/
def optionalRest (subjects populations support_strategies : List String)
    (min_amt max_amt : Option Int) : List (String × PVal) :=
  (if subjects = [] then [] else
    [("subject", PVal.str (String.intercalate "," subjects))]) ++
  (if populations = [] then [] else
    [("population", PVal.str (String.intercalate "," populations))]) ++
  (if support_strategies = [] then [] else
    [("support", PVal.str (String.intercalate "," support_strategies))]) ++
  (match min_amt with
    | some m => [("min_amt", PVal.int m)]
    | none => []) ++
  (match max_amt with
    | some m => [("max_amt", PVal.int m)]
    | none => [])

/-! ### Association-list lookup helpers -/

theorem lookup_append_left {β : Type} (l1 l2 : List (String × β)) (k : String) (v : β)
    (h : l1.lookup k = some v) : (l1 ++ l2).lookup k = some v := by
  induction l1 with
  | nil => simp at h
  | cons a l ih =>
      cases a with
      | mk ka va =>
          cases hk : (k == ka) with
          | true =>
              simp only [List.lookup, hk] at h
              simp only [List.cons_append, List.lookup, hk]
              exact h
          | false =>
              simp only [List.lookup, hk] at h
              simp only [List.cons_append, List.lookup, hk]
              exact ih h

theorem lookup_append_right {β : Type} (l1 l2 : List (String × β)) (k : String)
    (h : l1.lookup k = none) : (l1 ++ l2).lookup k = l2.lookup k := by
  induction l1 with
  | nil => simp
  | cons a l ih =>
      cases a with
      | mk ka va =>
          cases hk : (k == ka) with
          | true =>
              simp only [List.lookup, hk] at h
              exact Option.noConfusion h
          | false =>
              simp only [List.lookup, hk] at h
              simp only [List.cons_append, List.lookup, hk]
              exact ih h

theorem addOptionalParams_eq (subjects populations support_strategies : List String)
    (mn mx : Option Int) (params : List (String × PVal)) :
    addOptionalParams subjects populations support_strategies mn mx params =
      params ++ optionalRest subjects populations support_strategies mn mx := by
  simp only [addOptionalParams, optionalRest]
  split_ifs <;> cases mn <;> cases mx <;> simp

theorem buildQueryParams_none_none (page_number : Int)
    (dollar_range : Option Int × Option Int)
    (subjects populations locations support_strategies : List String) :
    buildQueryParams page_number (none, none) dollar_range
        subjects populations locations support_strategies =
      Except.ok (baseList page_number ++ locList locations ++
        optionalRest subjects populations support_strategies
          dollar_range.1 dollar_range.2) := by
  simp only [buildQueryParams, if_pos, addOptionalParams_eq]
  by_cases hl : locations = [] <;>
    simp [hl, baseList, locList, List.append_assoc]

theorem buildQueryParams_both (page_number s e : Int)
    (dollar_range : Option Int × Option Int)
    (subjects populations locations support_strategies : List String) :
    buildQueryParams page_number (some s, some e) dollar_range
        subjects populations locations support_strategies =
      Except.ok (baseList page_number ++ locList locations ++
        [("year", PVal.str (String.intercalate "," ((intRange s e).map toString)))] ++
        optionalRest subjects populations support_strategies
          dollar_range.1 dollar_range.2) := by
  simp only [buildQueryParams, addOptionalParams_eq]
  by_cases hl : locations = [] <;>
    simp [hl, baseList, locList, List.append_assoc]

theorem buildQueryParams_start_only (page_number s : Int)
    (dollar_range : Option Int × Option Int)
    (subjects populations locations support_strategies : List String) :
    buildQueryParams page_number (some s, none) dollar_range
        subjects populations locations support_strategies =
      Except.error PyErr.typeError := by
  by_cases hl : locations = [] <;> simp [buildQueryParams, hl]

theorem buildQueryParams_end_only (page_number e : Int)
    (dollar_range : Option Int × Option Int)
    (subjects populations locations support_strategies : List String) :
    buildQueryParams page_number (none, some e) dollar_range
        subjects populations locations support_strategies =
      Except.error PyErr.typeError := by
  by_cases hl : locations = [] <;> simp [buildQueryParams, hl]

theorem baseList_lookup_page (page_number : Int) :
    (baseList page_number).lookup "page" = some (PVal.int page_number) := by rfl

theorem baseList_lookup_none (page_number : Int) (k : String)
    (h : k ∉ ["page", "include_gov", "sort_by", "sort_order", "format"]) :
    (baseList page_number).lookup k = none := by
  simp only [List.mem_cons, List.mem_singleton, not_or] at h
  obtain ⟨h1, h2, h3, h4, h5, -⟩ := h
  simp [baseList, List.lookup, beq_false_of_ne h1, beq_false_of_ne h2,
    beq_false_of_ne h3, beq_false_of_ne h4, beq_false_of_ne h5]

theorem locList_lookup_none (locations : List String) (k : String)
    (h : k ∉ ["location", "geo_id_type", "location_type"]) :
    (locList locations).lookup k = none := by
  simp only [List.mem_cons, List.mem_singleton, not_or] at h
  obtain ⟨h1, h2, h3, -⟩ := h
  unfold locList
  split
  · rfl
  · simp [List.lookup, beq_false_of_ne h1, beq_false_of_ne h2, beq_false_of_ne h3]

theorem optionalRest_lookup_none (subjects populations support_strategies : List String)
    (mn mx : Option Int) (k : String)
    (h : k ∉ ["subject", "population", "support", "min_amt", "max_amt"]) :
    (optionalRest subjects populations support_strategies mn mx).lookup k = none := by
  simp only [List.mem_cons, List.mem_singleton, not_or] at h
  obtain ⟨h1, h2, h3, h4, h5, -⟩ := h
  unfold optionalRest
  split_ifs <;> cases mn <;> cases mx <;>
    simp [List.lookup, beq_false_of_ne h1, beq_false_of_ne h2, beq_false_of_ne h3,
      beq_false_of_ne h4, beq_false_of_ne h5]

theorem optionalRest_lookup_min_none (subjects populations support_strategies : List String)
    (mx : Option Int) :
    (optionalRest subjects populations support_strategies none mx).lookup "min_amt" = none := by
  unfold optionalRest
  split_ifs <;> cases mx <;> rfl

theorem optionalRest_lookup_max (subjects populations support_strategies : List String)
    (mn : Option Int) (m : Int) :
    (optionalRest subjects populations support_strategies mn (some m)).lookup "max_amt" =
      some (PVal.int m) := by
  unfold optionalRest
  split_ifs <;> cases mn <;> rfl


theorem fetchLoop_all_ok {α ε : Type} (fetcher : Nat → Except ε (PageData α))
    (l : List Nat) (hok : ∀ p ∈ l, isOkE (fetcher p) = true) :
    fetchLoop fetcher l =
      ⟨pageRows fetcher l, pageNotes fetcher l, [], l⟩ := by
  induction l with
  | nil => simp [fetchLoop, pageRows, pageNotes]
  | cons p ps ih =>
      have hp := hok p (List.mem_cons_self p ps)
      have hrest := ih (fun q hq => hok q (List.mem_cons_of_mem p hq))
      cases hf : fetcher p with
      | error e => simp [isOkE, hf] at hp
      | ok data =>
          cases hr : data.rows with
          | some rs =>
              simp [fetchLoop, hf, hr, hrest, pageRows, pageNotes, List.filter_cons]
          | none =>
              simp [fetchLoop, hf, hr, hrest, pageRows, pageNotes, List.filter_cons]

theorem fetchLoop_error_at {α ε : Type} (fetcher : Nat → Except ε (PageData α))
    (k : Nat) (e : ε) (he : fetcher k = Except.error e) (l1 l2 : List Nat)
    (hok : ∀ p ∈ l1, isOkE (fetcher p) = true) :
    fetchLoop fetcher (l1 ++ k :: l2) =
      ⟨pageRows fetcher l1, pageNotes fetcher l1, [(k, e)], l1 ++ [k]⟩ := by
  induction l1 with
  | nil => simp [fetchLoop, he, pageRows, pageNotes]
  | cons p ps ih =>
      have hp := hok p (List.mem_cons_self p ps)
      have hrest := ih (fun q hq => hok q (List.mem_cons_of_mem p hq))
      cases hf : fetcher p with
      | error e2 => simp [isOkE, hf] at hp
      | ok data =>
          cases hr : data.rows with
          | some rs =>
              simp [fetchLoop, hf, hr, hrest, pageRows, pageNotes, List.filter_cons]
          | none =>
              simp [fetchLoop, hf, hr, hrest, pageRows, pageNotes, List.filter_cons]

theorem intRange_eq_specYearCodes (s e : Int) : intRange s e = specYearCodes s e := by
  unfold intRange
  generalize hn : (e + 1 - s).toNat = n
  induction n generalizing s with
  | zero =>
      rw [specYearCodes, if_neg (by omega)]
      simp
  | succ n ih =>
      rw [specYearCodes, if_pos (by omega), List.range_succ_eq_map, List.map_cons,
        List.map_map]
      congr 1
      · simp
      · rw [← ih (s + 1) (by omega)]
        apply List.map_congr_left
        intro i _
        simp [Function.comp, Nat.succ_eq_add_one]
        ring

theorem fromJson_toJson_optInt (a : Option Int) :
    fromJson (toJson (optInt a)) = optInt a := by
  cases a <;> rfl

theorem fromJsonList_toJsonList_strs (xs : List String) :
    fromJsonList (toJsonList (xs.map PyVal.pstr)) = xs.map PyVal.pstr := by
  induction xs with
  | nil => rfl
  | cons x xs ih => simp [toJsonList, fromJsonList, toJson, fromJson, ih]

/-! ### Claim theorems -/

/-- C7: for every page number and every filter, whenever
`_build_query_params` produces a mapping, that mapping contains
`page` equal to the given page number, `include_gov="yes"`,
`sort_by="year_issued"`, `sort_order="desc"` and `format="json"`,
regardless of which filter fields are set. -/
theorem build_query_params_fixed_entries (page_number : Int)
    (year_range dollar_range : Option Int × Option Int)
    (subjects populations locations support_strategies : List String)
    (ps : List (String × PVal))
    (h : buildQueryParams page_number year_range dollar_range
      subjects populations locations support_strategies = Except.ok ps) :
    ps.lookup "page" = some (PVal.int page_number) ∧
    ps.lookup "include_gov" = some (PVal.str "yes") ∧
    ps.lookup "sort_by" = some (PVal.str "year_issued") ∧
    ps.lookup "sort_order" = some (PVal.str "desc") ∧
    ps.lookup "format" = some (PVal.str "json") := by
  rcases year_range with ⟨ys, ye⟩
  cases ys with
  | some s =>
      cases ye with
      | none => rw [buildQueryParams_start_only] at h; exact Except.noConfusion h
      | some e =>
          rw [buildQueryParams_both] at h
          injection h with h
          subst h
          refine ⟨?_, ?_, ?_, ?_, ?_⟩ <;>
            exact lookup_append_left _ _ _ _
              (lookup_append_left _ _ _ _ (lookup_append_left _ _ _ _ (by rfl)))
  | none =>
      cases ye with
      | some e => rw [buildQueryParams_end_only] at h; exact Except.noConfusion h
      | none =>
          rw [buildQueryParams_none_none] at h
          injection h with h
          subst h
          refine ⟨?_, ?_, ?_, ?_, ?_⟩ <;>
            exact lookup_append_left _ _ _ _ (lookup_append_left _ _ _ _ (by rfl))

/-- Witness for C7 at a concrete input. -/
theorem build_query_params_fixed_entries_witness :
    (((baseList 7 ++ locList ["4671654"]) ++
        optionalRest ["SJ02"] [] [] (some 25000) none).lookup "page" =
      some (PVal.int 7)) ∧
    (((baseList 7 ++ locList ["4671654"]) ++
        optionalRest ["SJ02"] [] [] (some 25000) none).lookup "include_gov" =
      some (PVal.str "yes")) ∧
    (((baseList 7 ++ locList ["4671654"]) ++
        optionalRest ["SJ02"] [] [] (some 25000) none).lookup "sort_by" =
      some (PVal.str "year_issued")) ∧
    (((baseList 7 ++ locList ["4671654"]) ++
        optionalRest ["SJ02"] [] [] (some 25000) none).lookup "sort_order" =
      some (PVal.str "desc")) ∧
    (((baseList 7 ++ locList ["4671654"]) ++
        optionalRest ["SJ02"] [] [] (some 25000) none).lookup "format" =
      some (PVal.str "json")) :=
  build_query_params_fixed_entries 7 (none, none) (some 25000, none)
    ["SJ02"] [] ["4671654"] [] _ (by rfl)

/-- C2 counterexample: with `dollarRange = (None, 100)` (min absent, max
set) the builder does emit a `max_amt` key — the presence of min does not
gate the emission of max (app.py lines 99-103 test the two bounds
independently). -/
theorem build_query_params_max_without_min_counterexample :
    (buildQueryParams 1 (none, none) (none, some 100) [] [] [] []).map
      (fun ps => ps.lookup "max_amt") = Except.ok (some (PVal.int 100)) := by rfl

/-- C2 (amended): for every filter whose `dollarRange` is `(None, m)` with
`m` present, the builder emits no `min_amt` key but does emit
`max_amt = m`; the two bounds are tested independently. -/
theorem build_query_params_min_absent_max_emitted (page_number m : Int)
    (year_range : Option Int × Option Int)
    (subjects populations locations support_strategies : List String)
    (ps : List (String × PVal))
    (h : buildQueryParams page_number year_range (none, some m)
      subjects populations locations support_strategies = Except.ok ps) :
    ps.lookup "min_amt" = none ∧ ps.lookup "max_amt" = some (PVal.int m) := by
  rcases year_range with ⟨ys, ye⟩
  cases ys with
  | some s =>
      cases ye with
      | none => rw [buildQueryParams_start_only] at h; exact Except.noConfusion h
      | some e =>
          rw [buildQueryParams_both] at h
          injection h with h
          subst h
          constructor
          · rw [lookup_append_right _ _ _
              (lookup_append_right _ _ _ (lookup_append_right _ _ _
                (baseList_lookup_none _ _ (by decide))
                |>.trans (locList_lookup_none _ _ (by decide)))
                |>.trans (by rfl))]
            exact optionalRest_lookup_min_none _ _ _ _
          · rw [lookup_append_right _ _ _
              (lookup_append_right _ _ _ (lookup_append_right _ _ _
                (baseList_lookup_none _ _ (by decide))
                |>.trans (locList_lookup_none _ _ (by decide)))
                |>.trans (by rfl))]
            exact optionalRest_lookup_max _ _ _ _ _
  | none =>
      cases ye with
      | some e => rw [buildQueryParams_end_only] at h; exact Except.noConfusion h
      | none =>
          rw [buildQueryParams_none_none] at h
          injection h with h
          subst h
          constructor
          · rw [lookup_append_right _ _ _
              ((lookup_append_right _ _ _ (baseList_lookup_none _ _ (by decide))).trans
                (locList_lookup_none _ _ (by decide)))]
            exact optionalRest_lookup_min_none _ _ _ _
          · rw [lookup_append_right _ _ _
              ((lookup_append_right _ _ _ (baseList_lookup_none _ _ (by decide))).trans
                (locList_lookup_none _ _ (by decide)))]
            exact optionalRest_lookup_max _ _ _ _ _

/-- Witness for the amended C2 at a concrete input. -/
theorem build_query_params_min_absent_max_emitted_witness :
    ((baseList 1 ++ locList [] ++
        optionalRest [] [] [] none (some 100)).lookup "min_amt" = none) ∧
    ((baseList 1 ++ locList [] ++
        optionalRest [] [] [] none (some 100)).lookup "max_amt" =
      some (PVal.int 100)) :=
  build_query_params_min_absent_max_emitted 1 100 (none, none) [] [] [] [] _ (by rfl)

/-- C9: the query-parameter builder is deterministic — two calls with
identical page numbers and identical filter fields return identical
results (in this pure embedding the builder has no side effects; its result,
including the error case, depends only on its arguments). -/
theorem build_query_params_deterministic (p1 p2 : Int)
    (yr1 yr2 dr1 dr2 : Option Int × Option Int)
    (s1 s2 pop1 pop2 loc1 loc2 su1 su2 : List String)
    (hp : p1 = p2) (hyr : yr1 = yr2) (hdr : dr1 = dr2) (hs : s1 = s2)
    (hpop : pop1 = pop2) (hloc : loc1 = loc2) (hsu : su1 = su2) :
    buildQueryParams p1 yr1 dr1 s1 pop1 loc1 su1 =
      buildQueryParams p2 yr2 dr2 s2 pop2 loc2 su2 := by
  subst hp hyr hdr hs hpop hloc hsu
  rfl

/-- Witness for C9 at a concrete input. -/
theorem build_query_params_deterministic_witness :
    buildQueryParams 1 (some 2020, some 2022) (some 25000, none)
        ["SJ02"] ["PA010000"] ["4671654"] ["UA"] =
      buildQueryParams 1 (some 2020, some 2022) (some 25000, none)
        ["SJ02"] ["PA010000"] ["4671654"] ["UA"] :=
  build_query_params_deterministic 1 1 (some 2020, some 2022) (some 2020, some 2022)
    (some 25000, none) (some 25000, none) ["SJ02"] ["SJ02"] ["PA010000"] ["PA010000"]
    ["4671654"] ["4671654"] ["UA"] ["UA"] rfl rfl rfl rfl rfl rfl rfl

/-- C10: the builder is not total over optional year ranges. For every
year range `(some y, none)` (start set, end absent) it raises — the year
branch is taken because the range differs from `(None, None)` and
`end_year + 1` is a `TypeError` on `None`; symmetrically `(none, some y)`
raises via `range(None, _)`. Ranges `(None, None)` and `(start, end)` with
both bounds set never raise. -/
theorem build_query_params_partial_year_raises (page_number y s e : Int)
    (dollar_range : Option Int × Option Int)
    (subjects populations locations support_strategies : List String) :
    (buildQueryParams page_number (some y, none) dollar_range
      subjects populations locations support_strategies =
        Except.error PyErr.typeError) ∧
    (buildQueryParams page_number (none, some y) dollar_range
      subjects populations locations support_strategies =
        Except.error PyErr.typeError) ∧
    (isOkE (buildQueryParams page_number (none, none) dollar_range
      subjects populations locations support_strategies) = true) ∧
    (isOkE (buildQueryParams page_number (some s, some e) dollar_range
      subjects populations locations support_strategies) = true) := by
  refine ⟨buildQueryParams_start_only _ _ _ _ _ _ _,
    buildQueryParams_end_only _ _ _ _ _ _ _, ?_, ?_⟩
  · rw [buildQueryParams_none_none]; rfl
  · rw [buildQueryParams_both]; rfl

/-- C4: for every filter whose year range has both bounds set with
`start ≤ end`, the built mapping's `year` entry is the comma-joined list of
every integer from `start` to `end` inclusive (one code per year,
`specYearCodes`); and a `(None, None)` year range yields no `year` key. -/
theorem build_query_params_year_expansion (s e : Int) (hse : s ≤ e)
    (page_number : Int) (dollar_range : Option Int × Option Int)
    (subjects populations locations support_strategies : List String) :
    ((buildQueryParams page_number (some s, some e) dollar_range
        subjects populations locations support_strategies).map
      (fun ps => ps.lookup "year") =
      Except.ok (some (PVal.str (String.intercalate ","
        ((specYearCodes s e).map toString))))) ∧
    ((buildQueryParams page_number (none, none) dollar_range
        subjects populations locations support_strategies).map
      (fun ps => ps.lookup "year") = Except.ok none) := by
  constructor
  · rw [buildQueryParams_both, Except.map, intRange_eq_specYearCodes]
    have hfront : ((baseList page_number ++ locList locations) ++
        [("year", PVal.str (String.intercalate ","
          ((specYearCodes s e).map toString)))]).lookup "year" =
        some (PVal.str (String.intercalate "," ((specYearCodes s e).map toString))) := by
      rw [lookup_append_right _ _ _
        ((lookup_append_right _ _ _ (baseList_lookup_none _ _ (by decide))).trans
          (locList_lookup_none _ _ (by decide)))]
      rfl
    rw [lookup_append_left _ _ _ _ hfront]
  · rw [buildQueryParams_none_none, Except.map]
    rw [lookup_append_right _ _ _
      ((lookup_append_right _ _ _ (baseList_lookup_none _ _ (by decide))).trans
        (locList_lookup_none _ _ (by decide)))]
    rw [optionalRest_lookup_none _ _ _ _ _ _ (by decide)]

/-- Witness for C4: `yearRange = (2020, 2022)` produces the literal
`year="2020,2021,2022"`, and `(None, None)` produces no `year` key. -/
theorem build_query_params_year_expansion_witness :
    ((2020 : Int) ≤ 2022) ∧
    ((buildQueryParams 1 (some 2020, some 2022) (none, none) [] [] [] []).map
      (fun ps => ps.lookup "year") =
      Except.ok (some (PVal.str "2020,2021,2022"))) ∧
    ((buildQueryParams 1 (none, none) (none, none) [] [] [] []).map
      (fun ps => ps.lookup "year") = Except.ok none) := by
  have h := build_query_params_year_expansion 2020 2022 (by decide) 1 (none, none)
    [] [] [] []
  have hy : specYearCodes 2020 2022 = [2020, 2021, 2022] := by
    rw [specYearCodes, if_pos (by norm_num), specYearCodes, if_pos (by norm_num),
      specYearCodes, if_pos (by norm_num), specYearCodes, if_neg (by norm_num)]
    norm_num
  rw [hy] at h
  exact ⟨by decide, h.1, h.2⟩

/-- C1 (divergence witness): `fetch_grants` always iterates
`range(1, num_pages + 1)` — for any fetcher that succeeds on every page,
the pages fetched are `1, 2, ..., num_pages` regardless of any intended
start page. The "additional pages" continuation in `main` (app.py line 304)
therefore re-fetches pages `1..additional_pages` instead of resuming at
`num_pages + 1`, even though it saves them under a file name claiming pages
`num_pages+1 .. num_pages+additional_pages` (line 306). -/
theorem fetch_grants_always_starts_at_page_one {α ε : Type}
    (fetcher : Nat → Except ε (PageData α)) (num_pages : Nat)
    (hok : ∀ p, isOkE (fetcher p) = true) :
    (fetchGrants fetcher num_pages).pagesFetched = List.range' 1 num_pages := by
  unfold fetchGrants
  rw [fetchLoop_all_ok fetcher _ (fun p _ => hok p)]

/-- Witness for C1: a three-page continuation call touches pages 1, 2, 3 —
not pages 3, 4, 5. -/
theorem fetch_grants_always_starts_at_page_one_witness :
    (fetchGrants (fun _ => Except.ok (⟨some []⟩ : PageData Nat)) (ε := Unit)
      3).pagesFetched = List.range' 1 3 :=
  fetch_grants_always_starts_at_page_one _ 3 (fun _ => rfl)

/-- C3: if the page fetcher raises on page `k` of an `n`-page request
(`1 ≤ k ≤ n`, earlier pages succeeding), `fetch_grants` logs exactly one
error for page `k`, attempts no page after `k`, and returns exactly the
rows accumulated from pages `1 .. k-1` — it never raises past its own
boundary (the result is a total value, not an exception). -/
theorem fetch_grants_partial_results_on_failure {α ε : Type}
    (fetcher : Nat → Except ε (PageData α)) (num_pages k : Nat) (e : ε)
    (hk1 : 1 ≤ k) (hkn : k ≤ num_pages)
    (hok : ∀ p, 1 ≤ p → p < k → isOkE (fetcher p) = true)
    (he : fetcher k = Except.error e) :
    fetchGrants fetcher num_pages =
      ⟨pageRows fetcher (List.range' 1 (k - 1)),
       pageNotes fetcher (List.range' 1 (k - 1)),
       [(k, e)],
       List.range' 1 (k - 1) ++ [k]⟩ := by
  unfold fetchGrants
  have hsplit : List.range' 1 num_pages =
      List.range' 1 (k - 1) ++ k :: List.range' (k + 1) (num_pages - k) := by
    have h2 := List.range'_append_1 1 (k - 1) (num_pages - k + 1)
    rw [show 1 + (k - 1) = k from by omega] at h2
    rw [show num_pages - k + 1 + (k - 1) = num_pages from by omega] at h2
    rw [← h2, List.range'_succ]
  rw [hsplit]
  refine fetchLoop_error_at fetcher k e he _ _ (fun p hp => ?_)
  rw [List.mem_range'_1] at hp
  exact hok p hp.1 (by omega)

/-- Witness for C3: a failure on page 2 of a 3-page request returns only
page 1's rows and reports one error. -/
theorem fetch_grants_partial_results_on_failure_witness :
    fetchGrants (fun p => if p = 2 then Except.error "HTTP 500"
        else Except.ok (⟨some [p]⟩ : PageData Nat)) 3 =
      ⟨pageRows (fun p => if p = 2 then Except.error "HTTP 500"
          else Except.ok (⟨some [p]⟩ : PageData Nat)) (List.range' 1 (2 - 1)),
       pageNotes (fun p => if p = 2 then Except.error "HTTP 500"
          else Except.ok (⟨some [p]⟩ : PageData Nat)) (List.range' 1 (2 - 1)),
       [(2, "HTTP 500")],
       List.range' 1 (2 - 1) ++ [2]⟩ :=
  fetch_grants_partial_results_on_failure _ 3 2 "HTTP 500" (by decide) (by decide)
    (fun p h1 h2 => by
      have hp : p = 1 := by omega
      subst hp
      rfl)
    (by rfl)

/-- C5: a successfully parsed page whose `data` lacks a `rows` entry is
treated as zero results, not an error: the loop appends nothing to the
accumulator, records an informational note for that page, and continues
with the remaining requested pages. -/
theorem fetch_loop_rows_absent_is_zero_results {α ε : Type}
    (fetcher : Nat → Except ε (PageData α)) (p : Nat) (ps : List Nat)
    (h : fetcher p = Except.ok (⟨none⟩ : PageData α)) :
    fetchLoop fetcher (p :: ps) =
      ⟨(fetchLoop fetcher ps).grants,
       p :: (fetchLoop fetcher ps).infoNotes,
       (fetchLoop fetcher ps).errors,
       p :: (fetchLoop fetcher ps).pagesFetched⟩ := by
  simp [fetchLoop, h]

/-- Witness for C5 at a concrete input. -/
theorem fetch_loop_rows_absent_is_zero_results_witness :
    fetchLoop (fun p => Except.ok (⟨if p = 1 then none else some [p]⟩ :
        PageData Nat)) (ε := Unit) [1, 2] =
      ⟨(fetchLoop (fun p => Except.ok (⟨if p = 1 then none else some [p]⟩ :
          PageData Nat)) (ε := Unit) [2]).grants,
       1 :: (fetchLoop (fun p => Except.ok (⟨if p = 1 then none else some [p]⟩ :
          PageData Nat)) (ε := Unit) [2]).infoNotes,
       (fetchLoop (fun p => Except.ok (⟨if p = 1 then none else some [p]⟩ :
          PageData Nat)) (ε := Unit) [2]).errors,
       1 :: (fetchLoop (fun p => Except.ok (⟨if p = 1 then none else some [p]⟩ :
          PageData Nat)) (ε := Unit) [2]).pagesFetched⟩ :=
  fetch_loop_rows_absent_is_zero_results _ 1 [2] (by rfl)

/-- C6 counterexample: saving the default configuration (all-`None` tuple
ranges) and loading it back does not return a value equal to the original —
`json.dump` writes the Python tuples as JSON arrays and `json.load` returns
them as Python lists, and `[None, None] != (None, None)` in Python (this is
observable: after a load, the builder's `year_range != (None, None)` test
at app.py line 87 takes the wrong branch). -/
theorem saved_search_round_trip_not_identity :
    load_search_config (save_search_config
      (mkSearchConfig (none, none) (none, none) [] [] [] [] "")) ≠
    mkSearchConfig (none, none) (none, none) [] [] [] [] "" := by
  simp [load_search_config, save_search_config, mkSearchConfig, optInt,
    toJson, toJsonKVs, toJsonList, fromJson, fromJsonKVs, fromJsonList]

/-- C6 (amended): the save/load round trip preserves every field's
contents, but returns the two tuple-valued range fields as Python lists of
the same elements; all list- and string-valued fields come back equal. -/
theorem saved_search_round_trip_up_to_tuple_coercion
    (year_range dollar_range : Option Int × Option Int)
    (subjects populations locations support_strategies : List String)
    ( output_prefix : String) :
    load_search_config (save_search_config
      (mkSearchConfig year_range dollar_range subjects populations locations
        support_strategies output_prefix)) =
    mkLoadedSearchConfig year_range dollar_range subjects populations locations
      support_strategies output_prefix := by
  simp [load_search_config, save_search_config, mkSearchConfig,
    mkLoadedSearchConfig, toJson, toJsonKVs, toJsonList, fromJson, fromJsonKVs,
    fromJsonList, fromJson_toJson_optInt, fromJsonList_toJsonList_strs]

/-- C8: `save_grants_to_file(grants, prefix, start, end)` writes to the file
`{prefix}_pages_{start}-{end}.json` the JSON object `{"grants": grants}`
with `indent=2`; in particular the file for `("foo", 1, 5)` is named
`foo_pages_1-5.json`. -/
theorem save_grants_to_file_spec (grants : List JVal) ( output_prefix : String)
    (page_start page_end : Int) :
    ((save_grants_to_file grants output_prefix page_start page_end).path =
      output_prefix ++ "_pages_" ++ toString page_start ++ "-" ++
        toString page_end ++ ".json") ∧
    ((save_grants_to_file grants output_prefix page_start page_end).content =
      JVal.obj [("grants", JVal.arr grants)]) ∧
    ((save_grants_to_file grants output_prefix page_start page_end).indent = 2) ∧
    ((save_grants_to_file grants "foo" 1 5).path = "foo_pages_1-5.json") :=
  ⟨rfl, rfl, rfl, rfl⟩
